import Mathlib

/-!
Verification of the Candlr frontend (React SPA for candle-mold generation).

Shallow embedding of:
* the JSON values the REST client builds and parses
  (src/frontend/src/api/client.ts, here called the client),
* the mold-settings data model (src/frontend/src/types/index.ts),
* the wizard reducer and the pipeline drivers
  (src/frontend/src/hooks/useGeneration.ts),
* the download button (src/frontend/src/components/DownloadButton.tsx).

The remote backend is modelled as an oracle `Request → FetchResponse`;
each pipeline run is the deterministic event trace the frontend produces
against that oracle.
-/

namespace Candlr

/-- A JavaScript JSON-ish value. `undefined` models JavaScript `undefined`,
which is not a JSON value but arises from reading a missing property and
is dropped by `JSON.stringify`. -/
inductive Json where
  | undefined
  | null
  | bool (b : Bool)
  | num (n : Int)
  | str (s : String)
  | obj (fields : List (String × Json))

/-- JavaScript property access `o.k`: the value stored under key `k`,
`undefined` when the key is missing or the receiver is not an object. -/
def Json.field : Json → String → Json
  | .obj fs, k => (fs.lookup k).getD .undefined
  | _, _ => .undefined

/-- JavaScript truthiness of a value. -/
def Json.truthy : Json → Bool
  | .undefined => false
  | .null => false
  | .bool b => b
  | .num n => n != 0
  | .str s => s != ""
  | .obj _ => true

/-- The keys of an object value (empty for non-objects). -/
def Json.keys : Json → List String
  | .obj fs => fs.map Prod.fst
  | _ => []

/-- `String.prototype.replace` with a string pattern, as applied to a
parsed JSON value. At the one call site (useGeneration.ts line 167) the
receiver is a prompt template string; a non-string receiver is returned
unchanged here. -/
def Json.replaceStr : Json → String → String → Json
  | .str s, pat, repl => .str (s.replace pat repl)
  | j, _, _ => j

/-- Whether a value is JavaScript `undefined`. -/
def Json.isUndefined : Json → Bool
  | .undefined => true
  | _ => false

/-- `JSON.stringify` applied to a flat object literal: properties whose
value is `undefined` are omitted from the serialized object. -/
def stringifyObj (fields : List (String × Json)) : Json :=
  .obj (fields.filter fun p => !p.2.isUndefined)

/-- HTTP method used by the client. -/
inductive Method where
  | get
  | post
deriving DecidableEq, Repr

/-- An HTTP request as issued by `fetch`: method, path, and the
JSON-serialized body (`none` for the body-less GET). -/
structure Request where
  method : Method
  path : String
  body : Option Json

/-- A binary response body (JavaScript `Blob`). -/
structure Blob where
  data : List Nat
deriving DecidableEq, Repr

/-- A `fetch` response: the `ok` flag, the value `response.json()`
parses to, and the value `response.blob()` yields. -/
structure FetchResponse where
  ok : Bool
  json : Json
  blob : Blob

/-- The backend oracle: what response the network returns for a request. -/
def Backend : Type := Request → FetchResponse

/-- `new Error(error.detail || fallback)` on a non-ok response body:
the thrown error carries the `detail` field when it is present and
truthy, the endpoint fallback string otherwise. -/
def errorValue (errJson : Json) (fallback : String) : Json :=
  let d := errJson.field "detail"
  if d.truthy then d else .str fallback

/-- MoldSettings (types/index.ts lines 1-6): exactly the four declared
fields. TypeScript numbers are modelled as integers; every value that
occurs in this frontend is one. -/
structure MoldSettings where
  wallThickness : Int
  maxWidth : Int
  maxHeight : Int
  maxDepth : Int
deriving DecidableEq, Repr

/-- Property access `settings.includeRegistrationMarks` on a value of
the exported `MoldSettings` type: the type declares no such field, so
the read yields `undefined`. -/
def MoldSettings.includeRegistrationMarks (_ : MoldSettings) : Json := .undefined

/-- Property access `settings.includePouringChannel` on a value of the
exported `MoldSettings` type: the type declares no such field, so the
read yields `undefined`. -/
def MoldSettings.includePouringChannel (_ : MoldSettings) : Json := .undefined

/-- DEFAULT_MOLD_SETTINGS (types/index.ts lines 44-49). -/
def DEFAULT_MOLD_SETTINGS : MoldSettings :=
  { wallThickness := 5, maxWidth := 100, maxHeight := 100, maxDepth := 30 }

/-- A prompt template as parsed from the `/api/prompts` response. -/
structure PromptTemplate where
  prompt : Json
  model : Json

/-- The four prompt templates returned by `getPrompts`. -/
structure PromptTemplates where
  extractSubject : PromptTemplate
  generateImage : PromptTemplate
  createDepthMap : PromptTemplate
  generateMold : PromptTemplate

/-- Prompt/model info attached to a pipeline stage result. -/
structure PromptInfo where
  promptUsed : Json
  modelUsed : Json

/-- An image stage result: the image value and its prompt info. -/
structure ImageResult where
  image : Json
  promptInfo : PromptInfo

/-- The request `getPrompts` issues: GET /api/prompts, no body. -/
def getPromptsReq : Request :=
  { method := .get, path := "/api/prompts", body := none }

/-- Parsing of the `getPrompts` response (client lines 5-19): throws
the fixed message when not ok, otherwise parses the four templates. -/
def getPromptsResult (response : FetchResponse) : Except Json PromptTemplates :=
  if !response.ok then
    .error (.str "Failed to fetch prompts")
  else
    let data := response.json
    .ok
      { extractSubject :=
          { prompt := (data.field "extract_subject").field "prompt",
            model := (data.field "extract_subject").field "model" },
        generateImage :=
          { prompt := (data.field "generate_image").field "prompt",
            model := (data.field "generate_image").field "model" },
        createDepthMap :=
          { prompt := (data.field "create_depth_map").field "prompt",
            model := (data.field "create_depth_map").field "model" },
        generateMold :=
          { prompt := (data.field "generate_mold").field "prompt",
            model := (data.field "generate_mold").field "model" } }

/-- `getPrompts` against a backend oracle. -/
def getPrompts (backend : Backend) : Except Json PromptTemplates :=
  getPromptsResult (backend getPromptsReq)

/-- The request `extractSubject` issues. -/
def extractSubjectReq (imageBase64 : Json) : Request :=
  { method := .post, path := "/api/extract-subject",
    body := some (stringifyObj [("image", imageBase64)]) }

/-- Parsing of the `extractSubject` response (client lines 21-40). -/
def extractSubjectResult (response : FetchResponse) : Except Json ImageResult :=
  if !response.ok then
    .error (errorValue response.json "Failed to extract subject")
  else
    let data := response.json
    .ok
      { image := data.field "processed_image",
        promptInfo :=
          { promptUsed := data.field "prompt_used",
            modelUsed := data.field "model_used" } }

/-- `extractSubject` against a backend oracle. -/
def extractSubject (backend : Backend) (imageBase64 : Json) : Except Json ImageResult :=
  extractSubjectResult (backend (extractSubjectReq imageBase64))

/-- The request `generateImage` issues. The user prompt comes from the
text input and is a genuine string. -/
def generateImageReq (prompt : String) : Request :=
  { method := .post, path := "/api/generate-image",
    body := some (stringifyObj [("prompt", .str prompt)]) }

/-- Parsing of the `generateImage` response (client lines 42-61). -/
def generateImageResult (response : FetchResponse) : Except Json ImageResult :=
  if !response.ok then
    .error (errorValue response.json "Failed to generate image")
  else
    let data := response.json
    .ok
      { image := data.field "generated_image",
        promptInfo :=
          { promptUsed := data.field "prompt_used",
            modelUsed := data.field "model_used" } }

/-- `generateImage` against a backend oracle. -/
def generateImage (backend : Backend) (prompt : String) : Except Json ImageResult :=
  generateImageResult (backend (generateImageReq prompt))

/-- The request `createDepthMap` issues. -/
def createDepthMapReq (imageBase64 : Json) : Request :=
  { method := .post, path := "/api/create-depth-map",
    body := some (stringifyObj [("image", imageBase64)]) }

/-- Parsing of the `createDepthMap` response (client lines 63-82). -/
def createDepthMapResult (response : FetchResponse) : Except Json ImageResult :=
  if !response.ok then
    .error (errorValue response.json "Failed to create depth map")
  else
    let data := response.json
    .ok
      { image := data.field "depth_map",
        promptInfo :=
          { promptUsed := data.field "prompt_used",
            modelUsed := data.field "model_used" } }

/-- `createDepthMap` against a backend oracle. -/
def createDepthMap (backend : Backend) (imageBase64 : Json) : Except Json ImageResult :=
  createDepthMapResult (backend (createDepthMapReq imageBase64))

/-- The request `generateMold` issues (client lines 87-103): the body
object literal names seven properties, two of which read fields absent
from `MoldSettings` and thus hold `undefined`. -/
def generateMoldReq (depthMapBase64 : Json) (settings : MoldSettings) : Request :=
  { method := .post, path := "/api/generate-mold",
    body := some (stringifyObj
      [("depth_map", depthMapBase64),
       ("wall_thickness", .num settings.wallThickness),
       ("max_width", .num settings.maxWidth),
       ("max_height", .num settings.maxHeight),
       ("max_depth", .num settings.maxDepth),
       ("include_registration_marks", settings.includeRegistrationMarks),
       ("include_pouring_channel", settings.includePouringChannel)]) }

/-- Handling of the `generateMold` response (client lines 105-110): the
raw binary body, not parsed JSON. -/
def generateMoldResult (response : FetchResponse) : Except Json Blob :=
  if !response.ok then
    .error (errorValue response.json "Failed to generate mold")
  else
    .ok response.blob

/-- `generateMold` against a backend oracle. -/
def generateMold (backend : Backend) (depthMapBase64 : Json)
    (settings : MoldSettings) : Except Json Blob :=
  generateMoldResult (backend (generateMoldReq depthMapBase64 settings))

/-- The `step` discriminant of the wizard state (types/index.ts line 31). -/
inductive Step where
  | input
  | processing
  | customize
  | error
deriving DecidableEq, Repr

/-- The `inputType` discriminant (types/index.ts line 32). -/
inductive InputType where
  | image
  | prompt
deriving DecidableEq, Repr

/-- GenerationState (types/index.ts lines 30-42). Nullable fields are
options; images and error payloads carry the JavaScript values that flow
into them at runtime. -/
structure GenerationState where
  step : Step
  inputType : Option InputType
  originalImage : Option Json
  processedImage : Option Json
  depthMap : Option Json
  stlBlob : Option Blob
  errorMessage : Option Json
  currentProcessingStep : Option String
  currentPromptInfo : Option PromptInfo
  extractionPromptInfo : Option PromptInfo
  depthMapPromptInfo : Option PromptInfo

/-- The reducer action type (useGeneration.ts lines 6-14). The
SET_ERROR payload carries the value the thrown Error was built from;
its `message` property is the stringification of that value. -/
inductive Action where
  | START_IMAGE_PROCESSING (image : Json) (promptInfo : PromptInfo)
  | START_PROMPT_PROCESSING (userPrompt : String) (promptInfo : PromptInfo)
  | SET_PROCESSING_STEP (step : String) (promptInfo : PromptInfo)
  | SET_PROCESSED_IMAGE (image : Json) (promptInfo : PromptInfo)
  | SET_DEPTH_MAP (depthMap : Json) (promptInfo : PromptInfo)
  | SET_STL (blob : Blob)
  | SET_ERROR (message : Json)
  | RESET

/-- initialState (useGeneration.ts lines 16-28). -/
def initialState : GenerationState :=
  { step := .input,
    inputType := none,
    originalImage := none,
    processedImage := none,
    depthMap := none,
    stlBlob := none,
    errorMessage := none,
    currentProcessingStep := none,
    currentPromptInfo := none,
    extractionPromptInfo := none,
    depthMapPromptInfo := none }

/-- The reducer (useGeneration.ts lines 30-92), case by case; every
case spreads the previous state and overrides the listed fields. -/
def reducer (state : GenerationState) (action : Action) : GenerationState :=
  match action with
  | .START_IMAGE_PROCESSING image promptInfo =>
      { state with
        step := .processing,
        inputType := some .image,
        originalImage := some image,
        errorMessage := none,
        currentProcessingStep := some "Extracting subject...",
        currentPromptInfo := some promptInfo }
  | .START_PROMPT_PROCESSING _ promptInfo =>
      { state with
        step := .processing,
        inputType := some .prompt,
        errorMessage := none,
        currentProcessingStep := some "Generating image...",
        currentPromptInfo := some promptInfo }
  | .SET_PROCESSING_STEP step promptInfo =>
      { state with
        currentProcessingStep := some step,
        currentPromptInfo := some promptInfo }
  | .SET_PROCESSED_IMAGE image promptInfo =>
      { state with
        processedImage := some image,
        extractionPromptInfo := some promptInfo,
        currentPromptInfo := some promptInfo }
  | .SET_DEPTH_MAP depthMap promptInfo =>
      { state with
        depthMap := some depthMap,
        depthMapPromptInfo := some promptInfo,
        currentPromptInfo := some promptInfo }
  | .SET_STL blob =>
      { state with
        stlBlob := some blob,
        step := .customize,
        currentProcessingStep := none,
        currentPromptInfo := none }
  | .SET_ERROR message =>
      { state with
        step := .error,
        errorMessage := some message,
        currentProcessingStep := none,
        currentPromptInfo := none }
  | .RESET => initialState

/-- templateToPromptInfo (useGeneration.ts lines 95-97). -/
def templateToPromptInfo (template : PromptTemplate) : PromptInfo :=
  { promptUsed := template.prompt, modelUsed := template.model }

/-- One observable event of a pipeline run: a network request being
issued, the awaited response arriving, or a reducer action being
dispatched. -/
inductive Event where
  | request (r : Request)
  | response (r : FetchResponse)
  | dispatch (a : Action)

/-- The body of processImage from the START dispatch on
(useGeneration.ts lines 117-155), reached once the templates are
available in `prompts`: each `await api...` appears as a request event
immediately followed by the response event, and a stage failure takes
the catch branch, which dispatches SET_ERROR with the thrown value. -/
def processImageLoaded (backend : Backend) (imageBase64 : Json)
    (prompts : PromptTemplates) : List Event :=
  Event.dispatch (.START_IMAGE_PROCESSING imageBase64
      (templateToPromptInfo prompts.extractSubject)) ::
  let req1 := extractSubjectReq imageBase64
  let resp1 := backend req1
  Event.request req1 :: Event.response resp1 ::
  match extractSubjectResult resp1 with
  | .error e => [Event.dispatch (.SET_ERROR e)]
  | .ok extractResult =>
    Event.dispatch (.SET_PROCESSED_IMAGE extractResult.image extractResult.promptInfo) ::
    Event.dispatch (.SET_PROCESSING_STEP "Creating depth map..."
        (templateToPromptInfo prompts.createDepthMap)) ::
    let req2 := createDepthMapReq extractResult.image
    let resp2 := backend req2
    Event.request req2 :: Event.response resp2 ::
    match createDepthMapResult resp2 with
    | .error e => [Event.dispatch (.SET_ERROR e)]
    | .ok depthResult =>
      Event.dispatch (.SET_DEPTH_MAP depthResult.image depthResult.promptInfo) ::
      Event.dispatch (.SET_PROCESSING_STEP "Generating 3D mold..."
          (templateToPromptInfo prompts.generateMold)) ::
      let req3 := generateMoldReq depthResult.image DEFAULT_MOLD_SETTINGS
      let resp3 := backend req3
      Event.request req3 :: Event.response resp3 ::
      match generateMoldResult resp3 with
      | .error e => [Event.dispatch (.SET_ERROR e)]
      | .ok stlBlob => [Event.dispatch (.SET_STL stlBlob)]

/-- processImage (useGeneration.ts lines 110-156). `promptsRef` is the
content of `promptsRef.current` when the run starts. When it is null
the function first awaits `api.getPrompts()` (lines 112-114); this
await is outside the try block, so a failed prompts fetch rejects the
whole run — no dispatch happens and no further request is issued. -/
def processImage (backend : Backend) (promptsRef : Option PromptTemplates)
    (imageBase64 : Json) : List Event :=
  match promptsRef with
  | some prompts => processImageLoaded backend imageBase64 prompts
  | none =>
    Event.request getPromptsReq :: Event.response (backend getPromptsReq) ::
    match getPromptsResult (backend getPromptsReq) with
    | .error _ => []
    | .ok prompts => processImageLoaded backend imageBase64 prompts

/-- The body of processPrompt from the placeholder substitution on
(useGeneration.ts lines 165-207), reached once the templates are
available in `prompts`. The displayed prompt info substitutes the user
prompt into the template placeholder before the first dispatch. -/
def processPromptLoaded (backend : Backend) (prompt : String)
    (prompts : PromptTemplates) : List Event :=
  let generatePromptInfo : PromptInfo :=
    { templateToPromptInfo prompts.generateImage with
      promptUsed :=
        (templateToPromptInfo prompts.generateImage).promptUsed.replaceStr
          "{user_prompt}" prompt }
  Event.dispatch (.START_PROMPT_PROCESSING prompt generatePromptInfo) ::
  let req1 := generateImageReq prompt
  let resp1 := backend req1
  Event.request req1 :: Event.response resp1 ::
  match generateImageResult resp1 with
  | .error e => [Event.dispatch (.SET_ERROR e)]
  | .ok generateResult =>
    Event.dispatch (.SET_PROCESSED_IMAGE generateResult.image generateResult.promptInfo) ::
    Event.dispatch (.SET_PROCESSING_STEP "Creating depth map..."
        (templateToPromptInfo prompts.createDepthMap)) ::
    let req2 := createDepthMapReq generateResult.image
    let resp2 := backend req2
    Event.request req2 :: Event.response resp2 ::
    match createDepthMapResult resp2 with
    | .error e => [Event.dispatch (.SET_ERROR e)]
    | .ok depthResult =>
      Event.dispatch (.SET_DEPTH_MAP depthResult.image depthResult.promptInfo) ::
      Event.dispatch (.SET_PROCESSING_STEP "Generating 3D mold..."
          (templateToPromptInfo prompts.generateMold)) ::
      let req3 := generateMoldReq depthResult.image DEFAULT_MOLD_SETTINGS
      let resp3 := backend req3
      Event.request req3 :: Event.response resp3 ::
      match generateMoldResult resp3 with
      | .error e => [Event.dispatch (.SET_ERROR e)]
      | .ok stlBlob => [Event.dispatch (.SET_STL stlBlob)]

/-- processPrompt (useGeneration.ts lines 158-208). As in processImage,
a null `promptsRef` makes the run first await `api.getPrompts()`
(lines 160-162) outside the try block: a failed prompts fetch rejects
the whole run with no dispatch and no further request. -/
def processPrompt (backend : Backend) (promptsRef : Option PromptTemplates)
    (prompt : String) : List Event :=
  match promptsRef with
  | some prompts => processPromptLoaded backend prompt prompts
  | none =>
    Event.request getPromptsReq :: Event.response (backend getPromptsReq) ::
    match getPromptsResult (backend getPromptsReq) with
    | .error _ => []
    | .ok prompts => processPromptLoaded backend prompt prompts

/-- regenerateMold (useGeneration.ts lines 210-225): the requests it
issues and the actions it dispatches. The guard
`if (!state.depthMap) return;` is a JavaScript falsiness check: a null
field, but also a stored empty string or undefined value, returns
early before any fetch or dispatch. -/
def regenerateMold (backend : Backend) (state : GenerationState)
    (settings : MoldSettings) : List Request × List Action :=
  match state.depthMap with
  | none => ([], [])
  | some depthMap =>
    if !depthMap.truthy then ([], [])
    else
      match generateMold backend depthMap settings with
      | .ok stlBlob => ([generateMoldReq depthMap settings], [.SET_STL stlBlob])
      | .error e => ([generateMoldReq depthMap settings], [.SET_ERROR e])

/-- The requests occurring in an event trace, in order. -/
def requestsOf (trace : List Event) : List Request :=
  trace.filterMap fun e =>
    match e with
    | .request r => some r
    | _ => none

/-- The request paths of an event trace, in order. -/
def requestPaths (trace : List Event) : List String :=
  (requestsOf trace).map Request.path

/-- No request event occurs in the trace. -/
def noRequests : List Event → Bool
  | [] => true
  | .request _ :: _ => false
  | _ :: rest => noRequests rest

/-- Sequential-call discipline of a trace: every request event is
immediately followed by its response event (the call is awaited to
completion before anything else happens), and after a failed response
no further request is ever issued. -/
def seqCalls : List Event → Bool
  | [] => true
  | .request _ :: .response r :: rest =>
      if r.ok then seqCalls rest else noRequests rest
  | .request _ :: _ => false
  | _ :: rest => seqCalls rest

/-- Specification side of the stage-order and dataflow claims: the
requests an image run is expected to issue once templates are loaded.
Subject extraction comes first; exactly when its response is ok,
depth-map creation is applied to the processed_image value of that
response; exactly when the depth response is ok in turn, mold
generation is applied to the depth_map value of the depth response
under DEFAULT_MOLD_SETTINGS. -/
def specImageStageRequests (backend : Backend) (imageBase64 : Json) : List Request :=
  extractSubjectReq imageBase64 ::
    (if (backend (extractSubjectReq imageBase64)).ok = true then
      createDepthMapReq
          ((backend (extractSubjectReq imageBase64)).json.field "processed_image") ::
        (if (backend (createDepthMapReq
            ((backend (extractSubjectReq imageBase64)).json.field
              "processed_image"))).ok = true then
          [generateMoldReq
            ((backend (createDepthMapReq
              ((backend (extractSubjectReq imageBase64)).json.field
                "processed_image"))).json.field "depth_map")
            DEFAULT_MOLD_SETTINGS]
        else [])
    else [])

/-- Specification side of the stage-order and dataflow claims for a
text-prompt run once templates are loaded: image generation first;
exactly when its response is ok, depth-map creation applied to the
generated_image value of that response; exactly when the depth
response is ok in turn, mold generation applied to the depth_map value
of the depth response under DEFAULT_MOLD_SETTINGS. -/
def specPromptStageRequests (backend : Backend) (prompt : String) : List Request :=
  generateImageReq prompt ::
    (if (backend (generateImageReq prompt)).ok = true then
      createDepthMapReq
          ((backend (generateImageReq prompt)).json.field "generated_image") ::
        (if (backend (createDepthMapReq
            ((backend (generateImageReq prompt)).json.field
              "generated_image"))).ok = true then
          [generateMoldReq
            ((backend (createDepthMapReq
              ((backend (generateImageReq prompt)).json.field
                "generated_image"))).json.field "depth_map")
            DEFAULT_MOLD_SETTINGS]
        else [])
    else [])

/-- The download action performed by the DownloadButton click handler
(DownloadButton.tsx lines 9-20): `now` stands for `Date.now()`. With a
null blob the handler returns without downloading. -/
structure DownloadAction where
  blob : Blob
  filename : String
deriving DecidableEq, Repr

/-- handleDownload (DownloadButton.tsx lines 9-20). -/
def handleDownload (stlBlob : Option Blob) (now : Int) : Option DownloadAction :=
  match stlBlob with
  | none => none
  | some b => some { blob := b, filename := "candle_mold_" ++ toString now ++ ".stl" }

/-- The `disabled` attribute of the rendered button
(DownloadButton.tsx line 25): `!stlBlob || disabled`, where an absent
`disabled` prop is `undefined`, hence falsy. -/
def buttonDisabled (stlBlob : Option Blob) (disabled : Option Bool) : Bool :=
  stlBlob.isNone || disabled.getD false

/-- Whether an `Except` result is a success. -/
def isOkResult {α : Type} : Except Json α → Bool
  | .ok _ => true
  | .error _ => false

/-- A backend oracle that answers every request with an ok response. -/
def okBackend : Backend :=
  fun _ => { ok := true, json := Json.null, blob := { data := [] } }

/-- A concrete prompt-template set for concrete runs. -/
def samplePrompts : PromptTemplates :=
  { extractSubject := { prompt := .str "extract", model := .str "m" },
    generateImage := { prompt := .str "generate", model := .str "m" },
    createDepthMap := { prompt := .str "depth", model := .str "m" },
    generateMold := { prompt := .str "mold", model := .str "m" } }

/-- A concrete wizard state holding a depth map. -/
def sampleStateWithDepthMap : GenerationState :=
  { initialState with depthMap := some (.str "dm") }

end Candlr

namespace Candlr

/-- C2: for every value of the exported `MoldSettings` type, the JSON
body serialized by `generateMold` contains neither an
`include_registration_marks` key nor an `include_pouring_channel` key:
the client reads `settings.includeRegistrationMarks` and
`settings.includePouringChannel`, which are `undefined` on every
`MoldSettings` value, and `JSON.stringify` drops them; so no call made
through this client can request registration marks or a pouring
channel. -/
theorem generateMold_body_omits_marks_and_channel
    (depthMapBase64 : Json) (settings : MoldSettings) :
    (((generateMoldReq depthMapBase64 settings).body.getD .null).keys.contains
        "include_registration_marks" = false) ∧
    (((generateMoldReq depthMapBase64 settings).body.getD .null).keys.contains
        "include_pouring_channel" = false) := by
  cases depthMapBase64 <;>
    simp [generateMoldReq, stringifyObj, Json.keys, Json.isUndefined,
      MoldSettings.includeRegistrationMarks, MoldSettings.includePouringChannel,
      List.filter]

/-- C6: the SET_ERROR transition changes only `step`, `errorMessage`,
`currentProcessingStep` and `currentPromptInfo`; input type, images,
depth map, STL blob and the per-stage prompt infos keep their previous
values, so artifacts computed before a failure survive into the error
state. -/
theorem setError_frame (s : GenerationState) (message : Json) :
    (reducer s (.SET_ERROR message)).inputType = s.inputType ∧
    (reducer s (.SET_ERROR message)).originalImage = s.originalImage ∧
    (reducer s (.SET_ERROR message)).processedImage = s.processedImage ∧
    (reducer s (.SET_ERROR message)).depthMap = s.depthMap ∧
    (reducer s (.SET_ERROR message)).stlBlob = s.stlBlob ∧
    (reducer s (.SET_ERROR message)).extractionPromptInfo = s.extractionPromptInfo ∧
    (reducer s (.SET_ERROR message)).depthMapPromptInfo = s.depthMapPromptInfo ∧
    (reducer s (.SET_ERROR message)).step = .error ∧
    (reducer s (.SET_ERROR message)).errorMessage = some message ∧
    (reducer s (.SET_ERROR message)).currentProcessingStep = none ∧
    (reducer s (.SET_ERROR message)).currentPromptInfo = none :=
  ⟨rfl, rfl, rfl, rfl, rfl, rfl, rfl, rfl, rfl, rfl, rfl⟩

/-- C8: with a null `stlBlob` prop the click handler performs no
download and the button renders disabled; with a blob present and the
`disabled` prop unset the button is enabled and a click downloads the
blob under a name of the form `candle_mold_<timestamp>.stl`. -/
theorem downloadButton_click_and_disabled :
    (∀ now : Int, handleDownload none now = none) ∧
    (∀ disabled : Option Bool, buttonDisabled none disabled = true) ∧
    (∀ (b : Blob) (now : Int),
      handleDownload (some b) now =
        some { blob := b, filename := "candle_mold_" ++ toString now ++ ".stl" } ∧
      buttonDisabled (some b) none = false) :=
  ⟨fun _ => rfl,
   fun d => by simp [buttonDisabled],
   fun b now => ⟨rfl, rfl⟩⟩

/-- One reducer step preserves the customize/error payload invariant. -/
lemma reducer_preserves_payload_invariant (s : GenerationState) (a : Action)
    (h1 : s.step = .customize → s.stlBlob ≠ none)
    (h2 : s.step = .error → s.errorMessage ≠ none) :
    ((reducer s a).step = .customize → (reducer s a).stlBlob ≠ none) ∧
    ((reducer s a).step = .error → (reducer s a).errorMessage ≠ none) := by
  cases a with
  | START_IMAGE_PROCESSING image promptInfo =>
      exact ⟨(fun h => nomatch h), (fun h => nomatch h)⟩
  | START_PROMPT_PROCESSING userPrompt promptInfo =>
      exact ⟨(fun h => nomatch h), (fun h => nomatch h)⟩
  | SET_PROCESSING_STEP step promptInfo => exact ⟨h1, h2⟩
  | SET_PROCESSED_IMAGE image promptInfo => exact ⟨h1, h2⟩
  | SET_DEPTH_MAP depthMap promptInfo => exact ⟨h1, h2⟩
  | SET_STL blob =>
      exact ⟨(fun _ => Option.some_ne_none blob), (fun h => nomatch h)⟩
  | SET_ERROR message =>
      exact ⟨(fun h => nomatch h), (fun _ => Option.some_ne_none message)⟩
  | RESET =>
      exact ⟨(fun h => nomatch h), (fun h => nomatch h)⟩

/-- The payload invariant propagates down any action list. -/
lemma foldl_reducer_payload_invariant (actions : List Action) :
    ∀ s : GenerationState,
      (s.step = .customize → s.stlBlob ≠ none) →
      (s.step = .error → s.errorMessage ≠ none) →
      ((actions.foldl reducer s).step = .customize →
          (actions.foldl reducer s).stlBlob ≠ none) ∧
      ((actions.foldl reducer s).step = .error →
          (actions.foldl reducer s).errorMessage ≠ none) := by
  induction actions with
  | nil => exact fun s h1 h2 => ⟨h1, h2⟩
  | cons a rest ih =>
      intro s h1 h2
      have step := reducer_preserves_payload_invariant s a h1 h2
      exact ih (reducer s a) step.1 step.2

/-- C5: in every state reachable from the initial state by reducer
actions, `step` is one of the four wizard phases; in the customize
phase the STL blob is present, and in the error phase the error
message is present. -/
theorem reducer_reachable_invariant (actions : List Action) :
    ((actions.foldl reducer initialState).step = .input ∨
     (actions.foldl reducer initialState).step = .processing ∨
     (actions.foldl reducer initialState).step = .customize ∨
     (actions.foldl reducer initialState).step = .error) ∧
    ((actions.foldl reducer initialState).step = .customize →
      (actions.foldl reducer initialState).stlBlob ≠ none) ∧
    ((actions.foldl reducer initialState).step = .error →
      (actions.foldl reducer initialState).errorMessage ≠ none) := by
  refine ⟨?_, ?_⟩
  · cases h : (actions.foldl reducer initialState).step
    · exact Or.inl rfl
    · exact Or.inr (Or.inl rfl)
    · exact Or.inr (Or.inr (Or.inl rfl))
    · exact Or.inr (Or.inr (Or.inr rfl))
  · exact foldl_reducer_payload_invariant actions initialState
      (fun h => nomatch h) (fun h => nomatch h)

/-- Witness for C5: after the single action SET_STL the wizard is in
the customize phase and the invariant gives a present STL blob. -/
theorem reducer_reachable_invariant_witness :
    ([Action.SET_STL { data := [] }].foldl reducer initialState).stlBlob ≠ none :=
  (reducer_reachable_invariant [Action.SET_STL { data := [] }]).2.1 rfl

/-- Counterexample to C9: a state whose depth map is the non-null
empty string. The source guard `if (!state.depthMap) return;` is a
falsiness check, so this run returns early — no request is issued and
no action is dispatched, refuting the claim that every non-null depth
map leads to a generateMold call. -/
theorem regenerateMold_empty_depthMap_no_request :
    ({ initialState with depthMap := some (.str "") } : GenerationState).depthMap =
      some (.str "") ∧
    regenerateMold okBackend { initialState with depthMap := some (.str "") }
      DEFAULT_MOLD_SETTINGS = ([], []) :=
  ⟨rfl, rfl⟩

/-- C9 (amended): `regenerateMold` with a null — or otherwise falsy
(empty string, undefined) — depth map issues no request and dispatches
no action; with a truthy depth map value present it issues exactly the
generate-mold request for that depth map and those settings, and on an
ok response dispatches SET_STL with the response blob. -/
theorem regenerateMold_guard (backend : Backend) (state : GenerationState)
    (settings : MoldSettings) :
    (state.depthMap = none → regenerateMold backend state settings = ([], [])) ∧
    (∀ d, state.depthMap = some d → d.truthy = false →
      regenerateMold backend state settings = ([], [])) ∧
    (∀ d, state.depthMap = some d → d.truthy = true →
      (regenerateMold backend state settings).1 = [generateMoldReq d settings] ∧
      ((backend (generateMoldReq d settings)).ok = true →
        (regenerateMold backend state settings).2 =
          [.SET_STL (backend (generateMoldReq d settings)).blob])) := by
  refine ⟨?_, ?_, ?_⟩
  · intro h
    simp [regenerateMold, h]
  · intro d hd ht
    simp [regenerateMold, hd, ht]
  · intro d hd ht
    constructor
    · simp only [regenerateMold, hd, ht, Bool.not_true, Bool.false_eq_true, if_false]
      cases generateMold backend d settings <;> rfl
    · intro hok
      simp [regenerateMold, hd, ht, generateMold, generateMoldResult, hok]

/-- Witness for C9: a concrete state holding a truthy depth map, an
all-ok backend. -/
theorem regenerateMold_guard_witness :
    (regenerateMold okBackend sampleStateWithDepthMap DEFAULT_MOLD_SETTINGS).2 =
      [.SET_STL { data := [] }] :=
  ((regenerateMold_guard okBackend sampleStateWithDepthMap DEFAULT_MOLD_SETTINGS).2.2
    (.str "dm") rfl rfl).2 rfl

/-- C7: every client function throws exactly when the response is not
ok; the four POST endpoints throw the response JSON `detail` field
when it is present and truthy, otherwise their fixed fallback message,
while `getPrompts` always throws the fixed prompts message; a throw
produces no result value. -/
theorem client_error_behavior (response : FetchResponse) :
    (isOkResult (getPromptsResult response) = response.ok) ∧
    (response.ok = false →
      getPromptsResult response = .error (.str "Failed to fetch prompts")) ∧
    (isOkResult (extractSubjectResult response) = response.ok) ∧
    (response.ok = false →
      extractSubjectResult response =
        .error (if (response.json.field "detail").truthy then response.json.field "detail"
                else .str "Failed to extract subject")) ∧
    (isOkResult (generateImageResult response) = response.ok) ∧
    (response.ok = false →
      generateImageResult response =
        .error (if (response.json.field "detail").truthy then response.json.field "detail"
                else .str "Failed to generate image")) ∧
    (isOkResult (createDepthMapResult response) = response.ok) ∧
    (response.ok = false →
      createDepthMapResult response =
        .error (if (response.json.field "detail").truthy then response.json.field "detail"
                else .str "Failed to create depth map")) ∧
    (isOkResult (generateMoldResult response) = response.ok) ∧
    (response.ok = false →
      generateMoldResult response =
        .error (if (response.json.field "detail").truthy then response.json.field "detail"
                else .str "Failed to generate mold")) := by
  cases hok : response.ok <;>
    simp [getPromptsResult, extractSubjectResult, generateImageResult,
      createDepthMapResult, generateMoldResult, isOkResult, errorValue, hok]

/-- Witness for C7: a failed response with a truthy detail field makes
`extractSubject` throw exactly that detail. -/
theorem client_error_behavior_witness :
    extractSubjectResult
        { ok := false, json := .obj [("detail", .str "boom")], blob := { data := [] } } =
      .error (.str "boom") := by
  have h := (client_error_behavior
      { ok := false, json := .obj [("detail", .str "boom")],
        blob := { data := [] } }).2.2.2.1 rfl
  simpa [Json.field, Json.truthy] using h

/-- C4: the client issues exactly the five request kinds — a GET to
/api/prompts and POSTs to /api/extract-subject, /api/generate-image,
/api/create-depth-map, /api/generate-mold; the first four parse the
JSON response body into their results, and only generate-mold yields
the raw binary body as a Blob. -/
theorem client_request_shapes :
    (getPromptsReq.method = .get ∧ getPromptsReq.path = "/api/prompts" ∧
      getPromptsReq.body = none) ∧
    (∀ j : Json, (extractSubjectReq j).method = .post ∧
      (extractSubjectReq j).path = "/api/extract-subject") ∧
    (∀ p : String, (generateImageReq p).method = .post ∧
      (generateImageReq p).path = "/api/generate-image") ∧
    (∀ j : Json, (createDepthMapReq j).method = .post ∧
      (createDepthMapReq j).path = "/api/create-depth-map") ∧
    (∀ (j : Json) (s : MoldSettings), (generateMoldReq j s).method = .post ∧
      (generateMoldReq j s).path = "/api/generate-mold") ∧
    (∀ response : FetchResponse, response.ok = true →
      getPromptsResult response = .ok
        { extractSubject :=
            { prompt := (response.json.field "extract_subject").field "prompt",
              model := (response.json.field "extract_subject").field "model" },
          generateImage :=
            { prompt := (response.json.field "generate_image").field "prompt",
              model := (response.json.field "generate_image").field "model" },
          createDepthMap :=
            { prompt := (response.json.field "create_depth_map").field "prompt",
              model := (response.json.field "create_depth_map").field "model" },
          generateMold :=
            { prompt := (response.json.field "generate_mold").field "prompt",
              model := (response.json.field "generate_mold").field "model" } } ∧
      extractSubjectResult response = .ok
        { image := response.json.field "processed_image",
          promptInfo :=
            { promptUsed := response.json.field "prompt_used",
              modelUsed := response.json.field "model_used" } } ∧
      generateImageResult response = .ok
        { image := response.json.field "generated_image",
          promptInfo :=
            { promptUsed := response.json.field "prompt_used",
              modelUsed := response.json.field "model_used" } } ∧
      createDepthMapResult response = .ok
        { image := response.json.field "depth_map",
          promptInfo :=
            { promptUsed := response.json.field "prompt_used",
              modelUsed := response.json.field "model_used" } } ∧
      generateMoldResult response = .ok response.blob) := by
  refine ⟨⟨rfl, rfl, rfl⟩, (fun j => ⟨rfl, rfl⟩), (fun p => ⟨rfl, rfl⟩),
    (fun j => ⟨rfl, rfl⟩), (fun j s => ⟨rfl, rfl⟩), ?_⟩
  intro response hok
  simp [getPromptsResult, extractSubjectResult, generateImageResult,
    createDepthMapResult, generateMoldResult, hok]

/-- Witness for C4: an ok response with binary body `[7]` makes
generate-mold yield exactly that body as the Blob. -/
theorem client_request_shapes_witness :
    generateMoldResult { ok := true, json := Json.null, blob := { data := [7] } } =
      .ok { data := [7] } :=
  (client_request_shapes.2.2.2.2.2
    { ok := true, json := Json.null, blob := { data := [7] } } rfl).2.2.2.2

/-- Path of the extract-subject request. -/
lemma extractSubjectReq_path (j : Json) :
    (extractSubjectReq j).path = "/api/extract-subject" := rfl

/-- Path of the generate-image request. -/
lemma generateImageReq_path (p : String) :
    (generateImageReq p).path = "/api/generate-image" := rfl

/-- Path of the create-depth-map request. -/
lemma createDepthMapReq_path (j : Json) :
    (createDepthMapReq j).path = "/api/create-depth-map" := rfl

/-- Path of the generate-mold request. -/
lemma generateMoldReq_path (j : Json) (s : MoldSettings) :
    (generateMoldReq j s).path = "/api/generate-mold" := rfl

/-- Path of the prompts request. -/
lemma getPromptsReq_path : getPromptsReq.path = "/api/prompts" := rfl

/-- A parse error from getPrompts arises only from a non-ok response. -/
lemma getPromptsResult_error_ok {response : FetchResponse} {e : Json}
    (h : getPromptsResult response = .error e) : response.ok = false := by
  by_contra hc
  rw [Bool.not_eq_false] at hc
  simp [getPromptsResult, hc] at h

/-- A parse success from getPrompts arises only from an ok response. -/
lemma getPromptsResult_ok_ok {response : FetchResponse} {prompts : PromptTemplates}
    (h : getPromptsResult response = .ok prompts) : response.ok = true := by
  by_contra hc
  rw [Bool.not_eq_true] at hc
  simp [getPromptsResult, hc] at h

/-- The loaded-templates image run issues exactly the specified stage
requests. -/
lemma processImageLoaded_requests (backend : Backend) (imageBase64 : Json)
    (prompts : PromptTemplates) :
    requestsOf (processImageLoaded backend imageBase64 prompts) =
      specImageStageRequests backend imageBase64 := by
  cases h1 : (backend (extractSubjectReq imageBase64)).ok <;>
  cases h2 : (backend (createDepthMapReq
      ((backend (extractSubjectReq imageBase64)).json.field "processed_image"))).ok <;>
  cases h3 : (backend (generateMoldReq
      ((backend (createDepthMapReq
        ((backend (extractSubjectReq imageBase64)).json.field "processed_image"))).json.field
          "depth_map") DEFAULT_MOLD_SETTINGS)).ok <;>
  simp [processImageLoaded, requestsOf, specImageStageRequests,
    extractSubjectResult, createDepthMapResult, generateMoldResult, h1, h2, h3]

/-- The loaded-templates prompt run issues exactly the specified stage
requests. -/
lemma processPromptLoaded_requests (backend : Backend) (prompt : String)
    (prompts : PromptTemplates) :
    requestsOf (processPromptLoaded backend prompt prompts) =
      specPromptStageRequests backend prompt := by
  cases h1 : (backend (generateImageReq prompt)).ok <;>
  cases h2 : (backend (createDepthMapReq
      ((backend (generateImageReq prompt)).json.field "generated_image"))).ok <;>
  cases h3 : (backend (generateMoldReq
      ((backend (createDepthMapReq
        ((backend (generateImageReq prompt)).json.field "generated_image"))).json.field
          "depth_map") DEFAULT_MOLD_SETTINGS)).ok <;>
  simp [processPromptLoaded, requestsOf, specPromptStageRequests,
    generateImageResult, createDepthMapResult, generateMoldResult, h1, h2, h3]

/-- The loaded-templates image run obeys the sequential-call
discipline. -/
lemma processImageLoaded_seqCalls (backend : Backend) (imageBase64 : Json)
    (prompts : PromptTemplates) :
    seqCalls (processImageLoaded backend imageBase64 prompts) = true := by
  cases h1 : (backend (extractSubjectReq imageBase64)).ok <;>
  cases h2 : (backend (createDepthMapReq
      ((backend (extractSubjectReq imageBase64)).json.field "processed_image"))).ok <;>
  cases h3 : (backend (generateMoldReq
      ((backend (createDepthMapReq
        ((backend (extractSubjectReq imageBase64)).json.field "processed_image"))).json.field
          "depth_map") DEFAULT_MOLD_SETTINGS)).ok <;>
  simp [processImageLoaded, seqCalls, noRequests,
    extractSubjectResult, createDepthMapResult, generateMoldResult, h1, h2, h3]

/-- The loaded-templates prompt run obeys the sequential-call
discipline. -/
lemma processPromptLoaded_seqCalls (backend : Backend) (prompt : String)
    (prompts : PromptTemplates) :
    seqCalls (processPromptLoaded backend prompt prompts) = true := by
  cases h1 : (backend (generateImageReq prompt)).ok <;>
  cases h2 : (backend (createDepthMapReq
      ((backend (generateImageReq prompt)).json.field "generated_image"))).ok <;>
  cases h3 : (backend (generateMoldReq
      ((backend (createDepthMapReq
        ((backend (generateImageReq prompt)).json.field "generated_image"))).json.field
          "depth_map") DEFAULT_MOLD_SETTINGS)).ok <;>
  simp [processPromptLoaded, seqCalls, noRequests,
    generateImageResult, createDepthMapResult, generateMoldResult, h1, h2, h3]

/-- The specified image stage requests number at most three. -/
lemma specImageStageRequests_length (backend : Backend) (imageBase64 : Json) :
    (specImageStageRequests backend imageBase64).length ≤ 3 := by
  unfold specImageStageRequests
  by_cases h1 : (backend (extractSubjectReq imageBase64)).ok = true <;>
  by_cases h2 : (backend (createDepthMapReq
      ((backend (extractSubjectReq imageBase64)).json.field
        "processed_image"))).ok = true <;>
  simp [h1, h2]

/-- The specified prompt stage requests number at most three. -/
lemma specPromptStageRequests_length (backend : Backend) (prompt : String) :
    (specPromptStageRequests backend prompt).length ≤ 3 := by
  unfold specPromptStageRequests
  by_cases h1 : (backend (generateImageReq prompt)).ok = true <;>
  by_cases h2 : (backend (createDepthMapReq
      ((backend (generateImageReq prompt)).json.field
        "generated_image"))).ok = true <;>
  simp [h1, h2]

/-- The paths of the specified image stage requests. -/
lemma specImageStageRequests_paths (backend : Backend) (imageBase64 : Json) :
    (specImageStageRequests backend imageBase64).map Request.path =
      "/api/extract-subject" ::
        (if (backend (extractSubjectReq imageBase64)).ok = true then
          "/api/create-depth-map" ::
            (if (backend (createDepthMapReq
                ((backend (extractSubjectReq imageBase64)).json.field
                  "processed_image"))).ok = true then
              ["/api/generate-mold"]
            else [])
        else []) := by
  unfold specImageStageRequests
  by_cases h1 : (backend (extractSubjectReq imageBase64)).ok = true <;>
  by_cases h2 : (backend (createDepthMapReq
      ((backend (extractSubjectReq imageBase64)).json.field
        "processed_image"))).ok = true <;>
  simp [h1, h2, extractSubjectReq_path, createDepthMapReq_path, generateMoldReq_path]

/-- The paths of the specified prompt stage requests. -/
lemma specPromptStageRequests_paths (backend : Backend) (prompt : String) :
    (specPromptStageRequests backend prompt).map Request.path =
      "/api/generate-image" ::
        (if (backend (generateImageReq prompt)).ok = true then
          "/api/create-depth-map" ::
            (if (backend (createDepthMapReq
                ((backend (generateImageReq prompt)).json.field
                  "generated_image"))).ok = true then
              ["/api/generate-mold"]
            else [])
        else []) := by
  unfold specPromptStageRequests
  by_cases h1 : (backend (generateImageReq prompt)).ok = true <;>
  by_cases h2 : (backend (createDepthMapReq
      ((backend (generateImageReq prompt)).json.field
        "generated_image"))).ok = true <;>
  simp [h1, h2, generateImageReq_path, createDepthMapReq_path, generateMoldReq_path]

/-- A warm image run (templates already loaded) issues exactly the
specified stage requests. -/
lemma processImage_requests_warm (backend : Backend) (prompts : PromptTemplates)
    (imageBase64 : Json) :
    requestsOf (processImage backend (some prompts) imageBase64) =
      specImageStageRequests backend imageBase64 :=
  processImageLoaded_requests backend imageBase64 prompts

/-- A warm prompt run issues exactly the specified stage requests. -/
lemma processPrompt_requests_warm (backend : Backend) (prompts : PromptTemplates)
    (prompt : String) :
    requestsOf (processPrompt backend (some prompts) prompt) =
      specPromptStageRequests backend prompt :=
  processPromptLoaded_requests backend prompt prompts

/-- A cold image run first fetches the prompt templates and proceeds
to the stage requests exactly when that fetch succeeds. -/
lemma processImage_requests_cold (backend : Backend) (imageBase64 : Json) :
    requestsOf (processImage backend none imageBase64) =
      getPromptsReq ::
        (if (backend getPromptsReq).ok = true then
          specImageStageRequests backend imageBase64
        else []) := by
  cases hg : getPromptsResult (backend getPromptsReq) with
  | error e =>
      have hp := getPromptsResult_error_ok hg
      simp [processImage, requestsOf, hg, hp]
  | ok prompts =>
      have hp := getPromptsResult_ok_ok hg
      rw [if_pos hp, ← processImageLoaded_requests backend imageBase64 prompts]
      simp [processImage, hg, requestsOf]

/-- A cold prompt run first fetches the prompt templates and proceeds
to the stage requests exactly when that fetch succeeds. -/
lemma processPrompt_requests_cold (backend : Backend) (prompt : String) :
    requestsOf (processPrompt backend none prompt) =
      getPromptsReq ::
        (if (backend getPromptsReq).ok = true then
          specPromptStageRequests backend prompt
        else []) := by
  cases hg : getPromptsResult (backend getPromptsReq) with
  | error e =>
      have hp := getPromptsResult_error_ok hg
      simp [processPrompt, requestsOf, hg, hp]
  | ok prompts =>
      have hp := getPromptsResult_ok_ok hg
      rw [if_pos hp, ← processPromptLoaded_requests backend prompt prompts]
      simp [processPrompt, hg, requestsOf]

/-- Counterexample to C1: a complete text-prompt run (templates
already loaded) against an all-ok backend never calls subject
extraction — its first backend step is image generation, so the claim
that every run starts with subject extraction is false for prompt
runs. -/
theorem processPrompt_run_skips_extraction :
    requestPaths (processPrompt okBackend (some samplePrompts) "a star shaped candle") =
      ["/api/generate-image", "/api/create-depth-map", "/api/generate-mold"] ∧
    (requestPaths (processPrompt okBackend (some samplePrompts)
        "a star shaped candle")).contains "/api/extract-subject" = false := by
  exact ⟨rfl, rfl⟩

/-- C1 (amended): an image-upload run issues subject extraction first,
then depth-map creation exactly when extraction succeeded, then mold
generation exactly when depth-map creation succeeded in turn; a
text-prompt run does the same with image generation in place of
subject extraction; and when the prompt templates are not yet loaded,
a prompts fetch precedes the stages, which are issued exactly when it
succeeds. -/
theorem pipeline_stage_order (backend : Backend) (prompts : PromptTemplates)
    (imageBase64 : Json) (prompt : String) :
    (requestPaths (processImage backend (some prompts) imageBase64) =
      "/api/extract-subject" ::
        (if (backend (extractSubjectReq imageBase64)).ok = true then
          "/api/create-depth-map" ::
            (if (backend (createDepthMapReq
                ((backend (extractSubjectReq imageBase64)).json.field
                  "processed_image"))).ok = true then
              ["/api/generate-mold"]
            else [])
        else [])) ∧
    (requestPaths (processImage backend none imageBase64) =
      "/api/prompts" ::
        (if (backend getPromptsReq).ok = true then
          "/api/extract-subject" ::
            (if (backend (extractSubjectReq imageBase64)).ok = true then
              "/api/create-depth-map" ::
                (if (backend (createDepthMapReq
                    ((backend (extractSubjectReq imageBase64)).json.field
                      "processed_image"))).ok = true then
                  ["/api/generate-mold"]
                else [])
            else [])
        else [])) ∧
    (requestPaths (processPrompt backend (some prompts) prompt) =
      "/api/generate-image" ::
        (if (backend (generateImageReq prompt)).ok = true then
          "/api/create-depth-map" ::
            (if (backend (createDepthMapReq
                ((backend (generateImageReq prompt)).json.field
                  "generated_image"))).ok = true then
              ["/api/generate-mold"]
            else [])
        else [])) ∧
    (requestPaths (processPrompt backend none prompt) =
      "/api/prompts" ::
        (if (backend getPromptsReq).ok = true then
          "/api/generate-image" ::
            (if (backend (generateImageReq prompt)).ok = true then
              "/api/create-depth-map" ::
                (if (backend (createDepthMapReq
                    ((backend (generateImageReq prompt)).json.field
                      "generated_image"))).ok = true then
                  ["/api/generate-mold"]
                else [])
            else [])
        else [])) := by
  refine ⟨?_, ?_, ?_, ?_⟩
  · unfold requestPaths
    rw [processImage_requests_warm backend prompts imageBase64,
      specImageStageRequests_paths]
  · unfold requestPaths
    rw [processImage_requests_cold backend imageBase64]
    by_cases hp : (backend getPromptsReq).ok = true <;>
      simp [hp, getPromptsReq_path, specImageStageRequests_paths]
  · unfold requestPaths
    rw [processPrompt_requests_warm backend prompts prompt,
      specPromptStageRequests_paths]
  · unfold requestPaths
    rw [processPrompt_requests_cold backend prompt]
    by_cases hp : (backend getPromptsReq).ok = true <;>
      simp [hp, getPromptsReq_path, specPromptStageRequests_paths]

/-- Counterexample to C10: a cold-start image run (the mount-time
prompts fetch not yet resolved) against an all-ok backend issues four
requests — the prompts preload plus the three pipeline stages — so
processImage can issue more than the claimed three API requests. -/
theorem cold_run_issues_four_requests :
    (requestsOf (processImage okBackend none (.str "img"))).length = 4 ∧
    ¬ (requestsOf (processImage okBackend none (.str "img"))).length ≤ 3 := by
  have h : (requestsOf (processImage okBackend none (.str "img"))).length = 4 := rfl
  exact ⟨h, by rw [h]; omega⟩

/-- C10 (amended): within a single pipeline run the backend calls
never overlap: every request event is immediately followed by its
awaited response before anything else happens, at most four requests
are issued (a conditional prompts preload plus at most three pipeline
stages), and after a failed response no further request is ever
issued. -/
theorem pipeline_sequential_calls (backend : Backend)
    (promptsRef : Option PromptTemplates) (imageBase64 : Json) (prompt : String) :
    (seqCalls (processImage backend promptsRef imageBase64) = true ∧
     (requestsOf (processImage backend promptsRef imageBase64)).length ≤ 4) ∧
    (seqCalls (processPrompt backend promptsRef prompt) = true ∧
     (requestsOf (processPrompt backend promptsRef prompt)).length ≤ 4) := by
  constructor
  · cases promptsRef with
    | some prompts =>
        refine ⟨processImageLoaded_seqCalls backend imageBase64 prompts, ?_⟩
        rw [processImage_requests_warm backend prompts imageBase64]
        have h := specImageStageRequests_length backend imageBase64
        omega
    | none =>
        cases hg : getPromptsResult (backend getPromptsReq) with
        | error e =>
            have hp := getPromptsResult_error_ok hg
            constructor
            · simp [processImage, seqCalls, noRequests, hg, hp]
            · simp [processImage, requestsOf, hg]
        | ok prompts =>
            have hp := getPromptsResult_ok_ok hg
            constructor
            · simp [processImage, seqCalls, hg, hp, processImageLoaded_seqCalls]
            · rw [processImage_requests_cold backend imageBase64, if_pos hp]
              have h := specImageStageRequests_length backend imageBase64
              simp only [List.length_cons]
              omega
  · cases promptsRef with
    | some prompts =>
        refine ⟨processPromptLoaded_seqCalls backend prompt prompts, ?_⟩
        rw [processPrompt_requests_warm backend prompts prompt]
        have h := specPromptStageRequests_length backend prompt
        omega
    | none =>
        cases hg : getPromptsResult (backend getPromptsReq) with
        | error e =>
            have hp := getPromptsResult_error_ok hg
            constructor
            · simp [processPrompt, seqCalls, noRequests, hg, hp]
            · simp [processPrompt, requestsOf, hg]
        | ok prompts =>
            have hp := getPromptsResult_ok_ok hg
            constructor
            · simp [processPrompt, seqCalls, hg, hp, processPromptLoaded_seqCalls]
            · rw [processPrompt_requests_cold backend prompt, if_pos hp]
              have h := specPromptStageRequests_length backend prompt
              simp only [List.length_cons]
              omega

/-- C3: in both pipeline drivers, and on both the warm path (templates
loaded) and the cold path (prompts preload first), the requests issued
are exactly: the first stage on the input; depth-map creation applied
to exactly the image value returned by the first stage (the
processed_image of subject extraction for image input, the
generated_image of image generation for prompt input); and mold
generation applied to exactly the depth_map value returned by
depth-map creation, with settings DEFAULT_MOLD_SETTINGS, whose fields
are wall thickness 5, max width 100, max height 100, max depth 30. -/
theorem pipeline_dataflow (backend : Backend) (prompts : PromptTemplates)
    (imageBase64 : Json) (prompt : String) :
    DEFAULT_MOLD_SETTINGS =
      { wallThickness := 5, maxWidth := 100, maxHeight := 100, maxDepth := 30 } ∧
    requestsOf (processImage backend (some prompts) imageBase64) =
      specImageStageRequests backend imageBase64 ∧
    requestsOf (processImage backend none imageBase64) =
      getPromptsReq ::
        (if (backend getPromptsReq).ok = true then
          specImageStageRequests backend imageBase64
        else []) ∧
    requestsOf (processPrompt backend (some prompts) prompt) =
      specPromptStageRequests backend prompt ∧
    requestsOf (processPrompt backend none prompt) =
      getPromptsReq ::
        (if (backend getPromptsReq).ok = true then
          specPromptStageRequests backend prompt
        else []) :=
  ⟨rfl, processImage_requests_warm backend prompts imageBase64,
   processImage_requests_cold backend imageBase64,
   processPrompt_requests_warm backend prompts prompt,
   processPrompt_requests_cold backend prompt⟩

end Candlr
